import Mathlib

/-!
Shallow embedding of the RexSolver optimizer backend
(src/optimizer-backend/app.py and src/optimizer-backend/optimizer.py).

Conventions of the embedding:
- Python floats are modelled as rationals (for the computable orchestration
  and result-extraction code) and as reals (for the parts of the reach-model
  builder that use log and exp).
- The external Gurobi solver is modelled as an oracle value of type
  SolverOutcome handed to the embedded run_gurobi_optimizer; everything the
  code does before and after the solver call is embedded faithfully.
- Stateful code (the per-job record mutated under job_lock) is modelled by
  explicit state passing: every mutation in app.py happens inside a
  critical section, so an execution of one job is a sequence of atomic
  steps, modelled as a fold over the list of step inputs in completion
  order.
-/

/-- A cleaned station row (optimizer.py, clean_data: columns Station, Cost,
Cume after numeric parsing). -/
structure Station where
  name : String
  cost : ℚ
  cume : ℚ
deriving DecidableEq, Repr

/-- A cleaned pair row (optimizer.py, clean_data: columns Station1, Station2,
Combined Cume after numeric parsing). -/
structure PairRow where
  station1 : String
  station2 : String
  combinedCume : ℚ
deriving DecidableEq, Repr

/-- Job status strings used by app.py: 'Pending', 'Preparing data...',
'Generating reach curve...', 'Completed', 'Error'. -/
inductive Status where
  | Pending
  | PreparingData
  | GeneratingCurve
  | Completed
  | Error
deriving DecidableEq, Repr

/-- One point of the reach curve appended by optimization_worker
(app.py lines 35-38): a dict with keys budget and reach. -/
structure CurvePoint where
  budget : ℚ
  reach : ℚ
deriving DecidableEq, Repr

/-- The success dictionary returned by run_gurobi_optimizer
(optimizer.py lines 152-160); the plan is the list of selected station
records. -/
structure GoodResult where
  plan : List Station
  total_cost : ℚ
  net_reach_percentage : ℚ
  net_reach_people : ℚ
  total_gross_cume : ℚ
  grps : ℚ
  avg_frequency : ℚ
deriving DecidableEq, Repr

/-- run_gurobi_optimizer returns either a dict containing an "error" key or
a GoodResult dict; modelled as Except. -/
abbrev OptResult := Except String GoodResult

/-- The in-memory job record created by start_job (app.py lines 143-149)
and mutated by the background flow. -/
structure JobState where
  status : Status
  main_result : Option GoodResult
  reach_curve : List CurvePoint
  progress : ℚ
  error : Option String
deriving DecidableEq, Repr

/-- app.py line 80: num_points = 10. -/
def num_points : ℕ := 10

/-- app.py line 81: budget_points = [(max_budget / num_points) * i
for i in range(0, num_points + 1)]. Note this list has num_points + 1
elements. -/
def budget_points (max_budget : ℚ) : List ℚ :=
  (List.range (num_points + 1)).map (fun i : ℕ => max_budget / (num_points : ℚ) * (i : ℚ))

/-- app.py line 95: time_limit = 30 + (i * 15) + (i == len(budget_points) - 1) * 30,
where numBudgetPoints is len(budget_points). -/
def time_limit_for (i : ℕ) (numBudgetPoints : ℕ) : ℕ :=
  30 + i * 15 + (if i = numBudgetPoints - 1 then 30 else 0)

/-- app.py line 39: jobs[job_id]['reach_curve'].sort(key=lambda p: p['budget']),
a stable sort of the curve by ascending budget. -/
def sortByBudget (l : List CurvePoint) : List CurvePoint :=
  l.mergeSort (fun a b => decide (a.budget ≤ b.budget))

/-- app.py lines 35-39: append the new point to the shared curve, then
re-sort the curve by budget. -/
def insert_and_sort (curve : List CurvePoint) (p : CurvePoint) : List CurvePoint :=
  sortByBudget (curve ++ [p])

/-- app.py, optimization_worker (lines 19-52): the state transformation a
single worker applies to the job record under job_lock, given the result of
its run_gurobi_optimizer call. The except-branch of the worker (lines 48-52)
performs the same state update as the error-dict branch (lines 26-31):
progress advances by 1 / num_points and nothing else changes. -/
def optimization_worker (st : JobState) (result : OptResult)
    (is_final_run : Bool) (nump : ℕ) : JobState :=
  match result with
  | Except.error _ => { st with progress := st.progress + 1 / (nump : ℚ) }
  | Except.ok r =>
      let st1 := { st with
        reach_curve := insert_and_sort st.reach_curve ⟨r.total_cost, r.net_reach_percentage⟩,
        progress := st.progress + 1 / (nump : ℚ) }
      if is_final_run then { st1 with main_result := some r } else st1

/-- The curve-generation phase of run_optimization_jobs (app.py lines 84-106):
all workers run concurrently but each worker's job-record update is a single
critical section, so an execution is a fold of optimization_worker over the
worker results in completion order. Each element of completions is the
OptResult of one budget point's run_gurobi_optimizer call paired with its
is_final_run flag. -/
def run_points (st : JobState) (completions : List (OptResult × Bool)) : JobState :=
  completions.foldl (fun s rb => optimization_worker s rb.1 rb.2 num_points) st

/-- app.py lines 108-110: after all futures settle, set status to Completed
unless it is already Error. -/
def finalize (st : JobState) : JobState :=
  if st.status ≠ Status.Error then { st with status := Status.Completed } else st

/-- app.py line 70: the error message when the requested sheet is absent. -/
def sheet_error_msg (sheet : String) (avail : List String) : String :=
  "Sheet " ++ sheet ++ " not found. Available sheets: " ++ String.intercalate ", " avail

/-- app.py, run_optimization_jobs (lines 55-116): the background flow for one
job. sheet_found models the membership test sheet_name in xls.sheet_names;
completions is the list of worker results in completion order. -/
def run_optimization_jobs (sheet_found : Bool) (avail : List String) (sheet : String)
    (completions : List (OptResult × Bool)) (st0 : JobState) : JobState :=
  let st := { st0 with status := Status.PreparingData }
  if !sheet_found then
    { st with status := Status.Error, error := some (sheet_error_msg sheet avail) }
  else
    finalize (run_points { st with status := Status.GeneratingCurve } completions)

/-- app.py lines 143-149: the fresh job record inserted at submission. -/
def initial_job : JobState :=
  { status := Status.Pending, main_result := none, reach_curve := [],
    progress := 0, error := none }

/-- Gurobi status codes relevant to optimizer.py lines 135-164. -/
inductive GurobiStatus where
  | OPTIMAL
  | SUBOPTIMAL
  | TIME_LIMIT
  | INFEASIBLE
  | OTHER (code : ℕ)
deriving DecidableEq, Repr

/-- The outcome of the external model.optimize() call: the solver status,
the number of solutions found (model.SolCount), the stations with
x[s].X > 0.5, and model.ObjVal. -/
structure SolverOutcome where
  status : GurobiStatus
  solCount : ℕ
  selected : List String
  objVal : ℚ
deriving DecidableEq, Repr

/-- optimizer.py line 124: the single budget constraint is
sum of costs[s] * x[s] <= budget; the cost incurred by a selection of
station names is the sum of the costs of the stations of the universe whose
name is selected. -/
def selectionCost (stations_df : List Station) (selected : List String) : ℚ :=
  ((stations_df.filter (fun s => selected.contains s.name)).map (fun s => s.cost)).sum

/-- The budget constraint of the model built at optimizer.py line 124 is
satisfiable: some binary assignment (equivalently, some selection of station
names) has total cost within the budget. -/
def budget_feasible (stations_df : List Station) (budget : ℚ) : Prop :=
  ∃ selected : List String, selectionCost stations_df selected ≤ budget

/-- optimizer.py, run_gurobi_optimizer (lines 42-164), with the external
model.optimize() call abstracted as the given outcome. Covers the
total_audience guard (line 48), the status dispatch (lines 135-164) and the
result extraction (lines 140-160). time_limit only feeds the timeout message
in the source. -/
def run_gurobi_optimizer (stations_df : List Station) (total_audience budget : ℚ)
    (time_limit : ℕ) (outcome : SolverOutcome) : OptResult :=
  if total_audience ≤ 0 then
    Except.error "Total Audience must be a positive number."
  else
    match outcome.status with
    | GurobiStatus.OPTIMAL | GurobiStatus.SUBOPTIMAL | GurobiStatus.TIME_LIMIT =>
      if outcome.solCount = 0 then
        Except.error "Optimizer timed out without finding a feasible solution for the given budget."
      else
        let plan := stations_df.filter (fun s => outcome.selected.contains s.name)
        let total_cost := (plan.map (fun s => s.cost)).sum
        let net_reach_prob := outcome.objVal
        let net_reach_people := net_reach_prob * total_audience
        let total_gross_cume := (plan.map (fun s => s.cume)).sum
        Except.ok
          { plan := plan
            total_cost := total_cost
            net_reach_percentage := net_reach_prob * 100
            net_reach_people := net_reach_people
            total_gross_cume := total_gross_cume
            grps := if 0 < total_audience then total_gross_cume / total_audience * 100 else 0
            avg_frequency := if 0 < net_reach_people then total_gross_cume / net_reach_people else 0 }
    | GurobiStatus.INFEASIBLE =>
      Except.error "The problem is infeasible. This likely means the budget is too low to purchase even the cheapest station."
    | GurobiStatus.OTHER _ =>
      Except.error "Optimizer failed. Please check inputs and budget."

/-- optimizer.py line 54: epsilon = 1e-9. -/
def epsilon : ℚ := 1 / 1000000000

/-- optimizer.py lines 59-63: r_i[s] = cumes[s] / total_audience, then
if r_i[s] >= 1.0 it is replaced by 1.0 - epsilon. -/
def reach_probability (cume total_audience : ℚ) : ℚ :=
  let raw := cume / total_audience
  if 1 ≤ raw then 1 - epsilon else raw

/-- optimizer.py lines 91-100: the covariance term lambda_W is set to
lambda1 + lambda2 + ln(log_arg) when log_arg > 0 and to 0 otherwise
(independence fallback), and is then clamped with max(0, ...). -/
noncomputable def lambda_W_code (lambda1 lambda2 log_arg : ℝ) : ℝ :=
  max 0 (if 0 < log_arg then lambda1 + lambda2 + Real.log log_arg else 0)

/-- Modelled from the spec wording of the claim: lambda_W equals
max(0, lambda1 + lambda2 + ln(log_arg)) when log_arg > 0 and 0 otherwise.
Used only to compare against lambda_W_code. -/
noncomputable def lambda_W_claim (lambda1 lambda2 log_arg : ℝ) : ℝ :=
  if 0 < log_arg then max 0 (lambda1 + lambda2 + Real.log log_arg) else 0

/-- optimizer.py lines 102-105: the final pairwise duplication probability
d_ij = 1 - e^(-(lambda1 + lambda2 - lambda_W)). -/
noncomputable def duplication_of (lambda1 lambda2 lambda_W : ℝ) : ℝ :=
  1 - Real.exp (-(lambda1 + lambda2 - lambda_W))

/-- optimizer.py lines 72-108: the body of the pair loop, processing one row
of pair_df against the duplication map d_ij, given the r_i and lambdas
dictionaries computed at lines 59-65 and the total audience. Storing a key
in a Python dict is modelled by consing the pair onto the association list
(List.lookup finds the most recent binding first, matching dict overwrite). -/
noncomputable def pair_step (stations : List String) (r lam : String → ℝ)
    (total_audience : ℝ) (m : List ((String × String) × ℝ)) (row : PairRow) :
    List ((String × String) × ℝ) :=
  if row.station1 ∈ stations ∧ row.station2 ∈ stations then
    let s1 := min row.station1 row.station2
    let s2 := max row.station1 row.station2
    let r1 := r s1
    let r2 := r s2
    let lambda1 := lam s1
    let lambda2 := lam s2
    let R12 := (row.combinedCume : ℝ) / total_audience
    let log_arg := 1 - r1 - r2 + R12
    let lambda_W := lambda_W_code lambda1 lambda2 log_arg
    let duplication_prob := duplication_of lambda1 lambda2 lambda_W
    if 0 < duplication_prob then ((s1, s2), duplication_prob) :: m else m
  else m

/-- optimizer.py lines 71-108: the whole pair loop, folding pair_step over
the rows of pair_df starting from the empty map d_ij = {}. -/
noncomputable def build_d_ij (stations : List String) (r lam : String → ℝ)
    (total_audience : ℝ) (rows : List PairRow) : List ((String × String) × ℝ) :=
  rows.foldl (pair_step stations r lam total_audience) []

/-- optimizer.py line 65: lambdas[s] = -ln(1 - r_i[s]). -/
noncomputable def lambda_i (r : String → ℝ) (s : String) : ℝ :=
  -Real.log (1 - r s)

/-!
Reference-aliasing model for get_job_status (app.py lines 160-168).

A Python job dict holds scalar fields by value and its reach_curve list by
reference. dict.copy() produces a new top-level dict with the same nested
references, so the copied record carries the same curve reference as the
stored record. List contents live in a heap indexed by reference. The
background worker mutates the list in place (append + sort, app.py
lines 35-39), i.e. it updates the heap at the job record's curve reference.
-/

/-- The job record as stored in the jobs dict, with the reach_curve list
held by reference (a heap address). main_result is assigned a fresh object
(never mutated in place), so it is kept by value here. -/
structure JobRecord where
  status : Status
  main_result : Option GoodResult
  curveRef : ℕ
  progress : ℚ
  error : Option String
deriving DecidableEq, Repr

/-- The list heap: contents of every reach_curve list object. -/
def CurveHeap : Type := ℕ → List CurvePoint

/-- app.py lines 160-168: get_job_status. Returns None (HTTP 404, job not
found) for an unknown id; otherwise returns job.copy(), a new top-level
dict with identical field values, including the same curve reference. -/
def get_job_status (jobs : List (String × JobRecord)) (job_id : String) :
    Option JobRecord :=
  match jobs.lookup job_id with
  | none => none
  | some job =>
      some { status := job.status, main_result := job.main_result,
             curveRef := job.curveRef, progress := job.progress,
             error := job.error }

/-- The curve contents visible through a (possibly copied) job record:
dereference its curve reference in the heap. -/
def snapshotCurve (h : CurveHeap) (job : JobRecord) : List CurvePoint :=
  h job.curveRef

/-- app.py lines 35-39 as seen by the heap: the background worker appends a
point to the stored record's reach_curve list in place and re-sorts it. -/
def backgroundAppend (jobs : List (String × JobRecord)) (h : CurveHeap)
    (job_id : String) (p : CurvePoint) : CurveHeap :=
  match jobs.lookup job_id with
  | none => h
  | some job => fun a => if a = job.curveRef then insert_and_sort (h job.curveRef) p else h a

/-- app.py, start_job (lines 118-158): the synchronous validation applied to
a submission. hasFile models 'file' in request.files; totalAudience and
budget are the results of the int(...) and float(...) parses (none models a
raised TypeError or ValueError); sheetName is request.form.get('sheetName')
(none models an absent field, and the empty string is also falsy). -/
inductive SubmitResponse where
  | rejected (msg : String)
  | accepted (job : JobState)
deriving DecidableEq, Repr

/-- app.py lines 118-158: validation order of start_job. On success a fresh
job id is allocated and initial_job is inserted into the jobs dict; the
background thread is started and the id returned. -/
def start_job (hasFile : Bool) (totalAudience : Option ℤ) (budget : Option ℚ)
    (sheetName : Option String) : SubmitResponse :=
  if !hasFile then SubmitResponse.rejected "No file part"
  else
    match totalAudience, budget with
    | some _, some _ =>
        match sheetName with
        | none => SubmitResponse.rejected "Sheet Name is required"
        | some s =>
            if s = "" then SubmitResponse.rejected "Sheet Name is required"
            else SubmitResponse.accepted initial_job
    | _, _ => SubmitResponse.rejected "Invalid Total Audience or Budget"

/-- The worker results of a list of budget-point tasks, each produced by the
embedded run_gurobi_optimizer on its (budget, solver outcome, is_final_run)
triple, in completion order. -/
def completions_from (stations_df : List Station) (total_audience : ℚ) (time_limit : ℕ)
    (specs : List (ℚ × SolverOutcome × Bool)) : List (OptResult × Bool) :=
  specs.map (fun s => (run_gurobi_optimizer stations_df total_audience s.1 time_limit s.2.1, s.2.2))

/-- An OptResult that carries an "error" key. -/
def is_error_result (r : OptResult) : Prop := ∃ m, r = Except.error m

/-- The eleven worker results of a job whose eleven budget-point solver
calls all fail (for example, every point infeasible): one per element of
budget_points 100 (a list of length num_points + 1 = 11), in dispatch
order; is_final_run is true exactly for the last budget point
(app.py line 94). -/
def eleven_failures : List (OptResult × Bool) :=
  [(Except.error "infeasible", false), (Except.error "infeasible", false),
   (Except.error "infeasible", false), (Except.error "infeasible", false),
   (Except.error "infeasible", false), (Except.error "infeasible", false),
   (Except.error "infeasible", false), (Except.error "infeasible", false),
   (Except.error "infeasible", false), (Except.error "infeasible", false),
   (Except.error "infeasible", true)]

/-- The job state after a run of run_optimization_jobs in which data
preparation succeeds and all eleven budget points fail. -/
def all_failed_final_state : JobState :=
  run_optimization_jobs true ["Sheet1"] "Sheet1" eleven_failures initial_job

/-- A concrete stored job record for the snapshot-aliasing scenario: a job
in the curve-generation phase whose reach_curve list lives at heap
address 0. -/
def c3_record : JobRecord :=
  { status := Status.GeneratingCurve, main_result := none, curveRef := 0,
    progress := 0, error := none }

/-- A concrete jobs dict holding the single job "j". -/
def c3_jobs : List (String × JobRecord) := [("j", c3_record)]

/-- A heap in which every curve list is still empty. -/
def empty_heap : CurveHeap := fun _ => []

/-!
Theorems.
-/

/-- Helper: a run of the curve-generation phase in which every worker result
is an error leaves status, reach_curve and main_result unchanged. -/
theorem run_points_errors_fields (completions : List (OptResult × Bool)) :
    ∀ st : JobState, (∀ c ∈ completions, is_error_result c.1) →
      (run_points st completions).status = st.status ∧
      (run_points st completions).reach_curve = st.reach_curve ∧
      (run_points st completions).main_result = st.main_result := by
  induction completions with
  | nil => intro st _; exact ⟨rfl, rfl, rfl⟩
  | cons c l ih =>
      intro st h
      obtain ⟨m, hm⟩ := h c (List.mem_cons_self c l)
      have hstep : run_points st (c :: l) =
          run_points (optimization_worker st c.1 c.2 num_points) l := rfl
      rw [hstep, hm]
      exact ih _ (fun d hd => h d (List.mem_cons_of_mem c hd))

/-- C1: evaluation of the code at a failing input. The scheduler dispatches
eleven budget points (num_points + 1) but each worker adds 1 / num_points
= 1/10 to progress, so a job whose eleven points all settle ends with
progress = 11/10 > 1 while its status is Completed, contradicting the claim
that progress never exceeds 1 and equals 1 when status becomes Completed. -/
theorem progress_overshoots_one :
    all_failed_final_state.status = Status.Completed ∧
    all_failed_final_state.progress = 11 / 10 ∧
    1 < all_failed_final_state.progress := by
  refine ⟨?_, ?_, ?_⟩ <;>
    simp [all_failed_final_state, run_optimization_jobs, eleven_failures,
      run_points, optimization_worker, finalize, initial_job, num_points] <;>
    norm_num

/-- C4, counterexample: for totalAudience = 2000000000 and cume = 1999999999
the raw ratio lies strictly between 1 - epsilon and 1, so the code keeps it
unchanged; the result differs from min(cume/totalAudience, 1 - epsilon) and
exceeds 1 - epsilon. -/
theorem reach_probability_exceeds_claimed_bound :
    reach_probability 1999999999 2000000000 ≠
      min ((1999999999 : ℚ) / 2000000000) (1 - epsilon) ∧
    1 - epsilon < reach_probability 1999999999 2000000000 := by
  have hlt : ¬ (1 : ℚ) ≤ 1999999999 / 2000000000 := by norm_num
  have hr : reach_probability 1999999999 2000000000 =
      (1999999999 : ℚ) / 2000000000 := by
    simp only [reach_probability]
    rw [if_neg hlt]
  have hmin : min ((1999999999 : ℚ) / 2000000000) (1 - epsilon) = 1 - epsilon := by
    rw [min_eq_right]
    norm_num [epsilon]
  refine ⟨?_, ?_⟩
  · rw [hr, hmin]; norm_num [epsilon]
  · rw [hr]; norm_num [epsilon]

/-- C4, amended: for a valid station (cume ≥ 0) and totalAudience > 0 the
derived reach probability lies in [0, 1) and is never exactly 1; it equals
the raw ratio when that ratio is below 1 and 1 - epsilon otherwise (so it
can exceed 1 - epsilon, but stays below 1). -/
theorem reach_probability_in_unit_interval (cume total_audience : ℚ)
    (hc : 0 ≤ cume) (ht : 0 < total_audience) :
    0 ≤ reach_probability cume total_audience ∧
    reach_probability cume total_audience < 1 ∧
    reach_probability cume total_audience =
      (if 1 ≤ cume / total_audience then 1 - epsilon else cume / total_audience) := by
  refine ⟨?_, ?_, rfl⟩ <;> unfold reach_probability <;> dsimp only <;> split
  · norm_num [epsilon]
  · exact div_nonneg hc ht.le
  · norm_num [epsilon]
  · exact lt_of_not_le (by assumption)

/-- Witness for reach_probability_in_unit_interval at cume = 1,
totalAudience = 4. -/
theorem reach_probability_in_unit_interval_witness :
    0 ≤ reach_probability 1 4 ∧
    reach_probability 1 4 < 1 ∧
    reach_probability 1 4 =
      (if 1 ≤ (1 : ℚ) / 4 then 1 - epsilon else (1 : ℚ) / 4) :=
  reach_probability_in_unit_interval 1 4 (by norm_num) (by norm_num)

/-- C8: under the schedule time_limit = 30 + 15 * i plus an extra 30 for the
final point (app.py line 95), every non-final index gets a strictly smaller
time limit than the last index, and the last budget point is the
maximum-budget point (it equals max_budget). -/
theorem max_budget_point_gets_largest_time_limit (max_budget : ℚ) (i : ℕ)
    (hi : i < (budget_points max_budget).length - 1) :
    time_limit_for i (budget_points max_budget).length <
      time_limit_for ((budget_points max_budget).length - 1)
        (budget_points max_budget).length ∧
    (budget_points max_budget).getLast? = some max_budget := by
  have hlen : (budget_points max_budget).length = 11 := by
    simp only [budget_points, List.length_map, List.length_range, num_points]
  constructor
  · rw [hlen] at hi ⊢
    simp only [time_limit_for]
    split <;> split <;> omega
  · have hexp : budget_points max_budget =
        (List.range (10 + 1)).map
          (fun i : ℕ => max_budget / ((10 : ℕ) : ℚ) * (i : ℚ)) := rfl
    rw [hexp, List.range_succ, List.map_append, List.map_cons, List.map_nil,
      List.getLast?_concat]
    push_cast
    rw [div_mul_cancel₀ _ (by norm_num : (10 : ℚ) ≠ 0)]

/-- Witness for max_budget_point_gets_largest_time_limit at max_budget = 100,
i = 3. -/
theorem max_budget_point_gets_largest_time_limit_witness :
    time_limit_for 3 (budget_points 100).length <
      time_limit_for ((budget_points 100).length - 1)
        (budget_points 100).length ∧
    (budget_points 100).getLast? = some 100 :=
  max_budget_point_gets_largest_time_limit 100 3
    (by simp only [budget_points, List.length_map, List.length_range, num_points]; omega)

/-- C2, counterexample: a universe with a single station of cost 5 > 0 and
budget 0. The budget constraint of the built model is satisfied by the
empty selection (cost 0 <= 0), so the instance is not infeasible and, per
the specified solver interface, the solver does not return Infeasible for
the zero-budget point. -/
theorem zero_budget_not_infeasible :
    0 < (Station.mk "A" 5 3).cost ∧ budget_feasible [Station.mk "A" 5 3] 0 := by
  refine ⟨by norm_num, ⟨[], ?_⟩⟩
  simp [selectionCost]

/-- C2, amended: for any station universe and any budget >= 0 the built model
is feasible (the empty selection satisfies the budget constraint), and an
optimal empty-selection solver outcome makes run_gurobi_optimizer return a
result with total_cost 0 and net reach 0 — so the zero-budget point yields a
curve point (0, 0) rather than being absent, and the job still completes. -/
theorem budget_zero_point_feasible_and_solved (stations_df : List Station)
    (total_audience budget : ℚ) (time_limit : ℕ)
    (hb : 0 ≤ budget) (ht : 0 < total_audience) :
    budget_feasible stations_df budget ∧
    run_gurobi_optimizer stations_df total_audience budget time_limit
        ⟨GurobiStatus.OPTIMAL, 1, [], 0⟩ =
      Except.ok { plan := [], total_cost := 0, net_reach_percentage := 0,
                  net_reach_people := 0, total_gross_cume := 0, grps := 0,
                  avg_frequency := 0 } := by
  have hplan : stations_df.filter (fun s => ([] : List String).contains s.name) = [] := by
    simp
  constructor
  · refine ⟨[], ?_⟩
    simp only [selectionCost, hplan, List.map_nil, List.sum_nil]
    exact hb
  · unfold run_gurobi_optimizer
    rw [if_neg (not_le.mpr ht)]
    simp only [hplan, List.map_nil, List.sum_nil]
    rw [if_pos ht, if_neg (by norm_num)]
    norm_num

/-- Witness for budget_zero_point_feasible_and_solved at a one-station
universe with cost 7, total audience 1, budget 0. -/
theorem budget_zero_point_feasible_and_solved_witness :
    budget_feasible [Station.mk "B" 7 2] 0 ∧
    run_gurobi_optimizer [Station.mk "B" 7 2] 1 0 30
        ⟨GurobiStatus.OPTIMAL, 1, [], 0⟩ =
      Except.ok { plan := [], total_cost := 0, net_reach_percentage := 0,
                  net_reach_people := 0, total_gross_cume := 0, grps := 0,
                  avg_frequency := 0 } :=
  budget_zero_point_feasible_and_solved [Station.mk "B" 7 2] 1 0 30 le_rfl one_pos

/-- C7: a job whose budget-point solves all fail (every worker result
carries an error) still finishes with status Completed, an empty reach
curve and main_result = none, provided data preparation succeeded; when the
data-preparation step itself failed (sheet not found) the status is Error
instead. -/
theorem all_failed_job_completes (avail : List String) (sheet : String)
    (completions : List (OptResult × Bool))
    (h : ∀ c ∈ completions, is_error_result c.1) :
    (run_optimization_jobs true avail sheet completions initial_job).status =
      Status.Completed ∧
    (run_optimization_jobs true avail sheet completions initial_job).reach_curve = [] ∧
    (run_optimization_jobs true avail sheet completions initial_job).main_result = none ∧
    (run_optimization_jobs false avail sheet completions initial_job).status =
      Status.Error := by
  obtain ⟨hs, hc, hm⟩ := run_points_errors_fields completions
    { status := Status.GeneratingCurve, main_result := none, reach_curve := [],
      progress := 0, error := none } h
  have hrun : run_optimization_jobs true avail sheet completions initial_job =
      finalize (run_points
        { status := Status.GeneratingCurve, main_result := none, reach_curve := [],
          progress := 0, error := none } completions) := by
    simp [run_optimization_jobs, initial_job]
  have hne : (run_points
      { status := Status.GeneratingCurve, main_result := none, reach_curve := [],
        progress := 0, error := none } completions).status ≠ Status.Error := by
    rw [hs]; exact fun hcon => by cases hcon
  refine ⟨?_, ?_, ?_, ?_⟩
  · rw [hrun]; unfold finalize; rw [if_pos hne]
  · rw [hrun]; unfold finalize; rw [if_pos hne]; exact hc
  · rw [hrun]; unfold finalize; rw [if_pos hne]; exact hm
  · simp [run_optimization_jobs, initial_job]

/-- Witness for all_failed_job_completes with a single failed point. -/
theorem all_failed_job_completes_witness :
    (run_optimization_jobs true ["S"] "S" [(Except.error "e", true)]
      initial_job).status = Status.Completed ∧
    (run_optimization_jobs true ["S"] "S" [(Except.error "e", true)]
      initial_job).reach_curve = [] ∧
    (run_optimization_jobs true ["S"] "S" [(Except.error "e", true)]
      initial_job).main_result = none ∧
    (run_optimization_jobs false ["S"] "S" [(Except.error "e", true)]
      initial_job).status = Status.Error :=
  all_failed_job_completes ["S"] "S" [(Except.error "e", true)]
    (by
      intro c hc
      rw [List.mem_singleton] at hc
      exact ⟨"e", by rw [hc]⟩)

/-- Helper: the result of insert_and_sort is sorted by ascending budget,
whatever the input list. -/
theorem sorted_insert_and_sort (curve : List CurvePoint) (p : CurvePoint) :
    (insert_and_sort curve p).Pairwise
      (fun a b : CurvePoint => a.budget ≤ b.budget) := by
  unfold insert_and_sort sortByBudget
  have h : ((curve ++ [p]).mergeSort
      (fun a b : CurvePoint => decide (a.budget ≤ b.budget))).Pairwise
      (fun a b : CurvePoint => decide (a.budget ≤ b.budget) = true) := by
    apply List.sorted_mergeSort
    · intro a b c hab hbc
      simp only [decide_eq_true_eq] at hab hbc ⊢
      exact le_trans hab hbc
    · intro a b
      simp only [Bool.or_eq_true, decide_eq_true_eq]
      exact le_total a.budget b.budget
  exact h.imp (fun hab => by simpa using hab)

/-- C6: through the actual worker, after any prefix of budget-point
completions in any completion order, the job's reach curve is sorted by
ascending budget: the order is re-established by the sort after each
insertion, not by a single final sort. -/
theorem reach_curve_always_sorted (completions : List (OptResult × Bool)) (k : ℕ) :
    ((run_points initial_job (completions.take k)).reach_curve).Pairwise
      (fun a b : CurvePoint => a.budget ≤ b.budget) := by
  have inv : ∀ (l : List (OptResult × Bool)) (st : JobState),
      st.reach_curve.Pairwise (fun a b : CurvePoint => a.budget ≤ b.budget) →
      (run_points st l).reach_curve.Pairwise
        (fun a b : CurvePoint => a.budget ≤ b.budget) := by
    intro l
    induction l with
    | nil => intro st h; exact h
    | cons c t ih =>
        intro st h
        have hstep : run_points st (c :: t) =
            run_points (optimization_worker st c.1 c.2 num_points) t := rfl
        rw [hstep]
        apply ih
        cases hc : c.1 with
        | error m => simpa [optimization_worker, hc] using h
        | ok r =>
            simp only [optimization_worker, hc]
            cases c.2 <;> simp only [if_true, if_false, Bool.false_eq_true] <;>
              exact sorted_insert_and_sort _ _
  exact inv _ _ (by simp [initial_job])

/-- Helper: the worker's success branch inserts the point whose budget field
is the result's total_cost and whose reach field is the result's
net_reach_percentage. -/
theorem worker_appends_point (st : JobState) (r : GoodResult) (fin : Bool) (n : ℕ) :
    CurvePoint.mk r.total_cost r.net_reach_percentage ∈
      (optimization_worker st (Except.ok r) fin n).reach_curve := by
  cases fin <;>
    simp [optimization_worker, insert_and_sort, sortByBudget, List.mem_mergeSort]

/-- C9: a successful budget-point result carries total_cost equal to the sum
of the selected stations' costs — the curve point appended by the worker has
that sum as its budget field, at most the requested budget when the solver's
selection satisfies the budget constraint, and not the requested budget
itself: the same solver outcome at a different requested budget (and time
limit) yields the identical result. -/
theorem curve_point_budget_is_selection_cost (stations_df : List Station)
    (total_audience b1 b2 : ℚ) (tl1 tl2 : ℕ) (outcome : SolverOutcome)
    (r : GoodResult) (st : JobState) (fin : Bool)
    (hok : run_gurobi_optimizer stations_df total_audience b1 tl1 outcome = Except.ok r)
    (hfeas : selectionCost stations_df outcome.selected ≤ b1) :
    r.total_cost = selectionCost stations_df outcome.selected ∧
    r.total_cost ≤ b1 ∧
    CurvePoint.mk r.total_cost r.net_reach_percentage ∈
      (optimization_worker st (Except.ok r) fin num_points).reach_curve ∧
    run_gurobi_optimizer stations_df total_audience b2 tl2 outcome = Except.ok r := by
  unfold run_gurobi_optimizer at hok
  by_cases hta : total_audience ≤ 0
  · rw [if_pos hta] at hok; simp at hok
  · rw [if_neg hta] at hok
    obtain ⟨ostatus, osol, osel, oobj⟩ := outcome
    cases ostatus with
    | INFEASIBLE => simp at hok
    | OTHER c => simp at hok
    | OPTIMAL | SUBOPTIMAL | TIME_LIMIT =>
        dsimp only at hok ⊢
        by_cases hsol : osol = 0
        · rw [if_pos hsol] at hok; simp at hok
        · rw [if_neg hsol] at hok
          rw [Except.ok.injEq] at hok
          subst hok
          refine ⟨rfl, hfeas, worker_appends_point _ _ _ _, ?_⟩
          unfold run_gurobi_optimizer
          rw [if_neg hta]
          dsimp only
          rw [if_neg hsol]

/-- Witness for curve_point_budget_is_selection_cost: one station of cost 5
selected at requested budgets 10 and 20. -/
theorem curve_point_budget_is_selection_cost_witness :
    (5 : ℚ) = selectionCost [Station.mk "A" 5 3] ["A"] ∧
    (5 : ℚ) ≤ 10 ∧
    CurvePoint.mk 5 50 ∈
      (optimization_worker initial_job
        (Except.ok (GoodResult.mk [Station.mk "A" 5 3] 5 50 (1 / 2) 3 300 6))
        true num_points).reach_curve ∧
    run_gurobi_optimizer [Station.mk "A" 5 3] 1 20 60
        ⟨GurobiStatus.OPTIMAL, 1, ["A"], 1 / 2⟩ =
      Except.ok (GoodResult.mk [Station.mk "A" 5 3] 5 50 (1 / 2) 3 300 6) :=
  curve_point_budget_is_selection_cost [Station.mk "A" 5 3] 1 10 20 30 60
    ⟨GurobiStatus.OPTIMAL, 1, ["A"], 1 / 2⟩
    (GoodResult.mk [Station.mk "A" 5 3] 5 50 (1 / 2) 3 300 6) initial_job true
    (by simp [run_gurobi_optimizer]; norm_num)
    (by simp [selectionCost]; norm_num)

/-- C10: start_job applies no positivity validation to the parsed numbers: a
submission with totalAudience <= 0 (and any budget, including <= 0) that has
a file part and a non-empty sheet name is accepted, and a Pending job record
is created. With totalAudience <= 0 every run_gurobi_optimizer call returns
the total-audience error, so a job whose budget points are all such calls
terminates with status Completed, an empty reach curve and
main_result = none, not with a synchronous InvalidInput rejection. -/
theorem submit_accepts_nonpositive_audience (ta : ℤ) (b : ℚ) (sheet : String)
    (stations_df : List Station) (budget : ℚ) (tl : ℕ) (outcome : SolverOutcome)
    (avail : List String) (specs : List (ℚ × SolverOutcome × Bool))
    (hta : ta ≤ 0) (hsheet : ¬ sheet = "") :
    start_job true (some ta) (some b) (some sheet) =
      SubmitResponse.accepted initial_job ∧
    run_gurobi_optimizer stations_df (ta : ℚ) budget tl outcome =
      Except.error "Total Audience must be a positive number." ∧
    (run_optimization_jobs true avail sheet
        (completions_from stations_df (ta : ℚ) tl specs) initial_job).status =
      Status.Completed ∧
    (run_optimization_jobs true avail sheet
        (completions_from stations_df (ta : ℚ) tl specs) initial_job).reach_curve = [] ∧
    (run_optimization_jobs true avail sheet
        (completions_from stations_df (ta : ℚ) tl specs) initial_job).main_result =
      none := by
  have htaQ : (ta : ℚ) ≤ 0 := by exact_mod_cast hta
  have herr : ∀ (bud : ℚ) (oc : SolverOutcome),
      run_gurobi_optimizer stations_df (ta : ℚ) bud tl oc =
        Except.error "Total Audience must be a positive number." := by
    intro bud oc
    unfold run_gurobi_optimizer
    rw [if_pos htaQ]
  have hall : ∀ c ∈ completions_from stations_df (ta : ℚ) tl specs,
      is_error_result c.1 := by
    intro c hc
    simp only [completions_from, List.mem_map] at hc
    obtain ⟨s, hs, rfl⟩ := hc
    exact ⟨_, herr s.1 s.2.1⟩
  obtain ⟨hs3, hc3, hm3⟩ := run_points_errors_fields
    (completions_from stations_df (ta : ℚ) tl specs)
    { status := Status.GeneratingCurve, main_result := none, reach_curve := [],
      progress := 0, error := none } hall
  have hrun : run_optimization_jobs true avail sheet
      (completions_from stations_df (ta : ℚ) tl specs) initial_job =
      finalize (run_points
        { status := Status.GeneratingCurve, main_result := none, reach_curve := [],
          progress := 0, error := none }
        (completions_from stations_df (ta : ℚ) tl specs)) := by
    simp [run_optimization_jobs, initial_job]
  have hne : (run_points
      { status := Status.GeneratingCurve, main_result := none, reach_curve := [],
        progress := 0, error := none }
      (completions_from stations_df (ta : ℚ) tl specs)).status ≠ Status.Error := by
    rw [hs3]; exact fun hcon => by cases hcon
  refine ⟨?_, herr budget outcome, ?_, ?_, ?_⟩
  · simp [start_job, hsheet]
  · rw [hrun]; unfold finalize; rw [if_pos hne]
  · rw [hrun]; unfold finalize; rw [if_pos hne]; exact hc3
  · rw [hrun]; unfold finalize; rw [if_pos hne]; exact hm3

/-- Witness for submit_accepts_nonpositive_audience at totalAudience = -5,
budget = 7. -/
theorem submit_accepts_nonpositive_audience_witness :
    start_job true (some (-5)) (some 7) (some "S") =
      SubmitResponse.accepted initial_job ∧
    run_gurobi_optimizer [Station.mk "A" 5 3] ((-5 : ℤ) : ℚ) 0 30
        ⟨GurobiStatus.OPTIMAL, 1, [], 0⟩ =
      Except.error "Total Audience must be a positive number." ∧
    (run_optimization_jobs true [] "S"
        (completions_from [Station.mk "A" 5 3] ((-5 : ℤ) : ℚ) 30
          [(0, ⟨GurobiStatus.OPTIMAL, 1, [], 0⟩, true)]) initial_job).status =
      Status.Completed ∧
    (run_optimization_jobs true [] "S"
        (completions_from [Station.mk "A" 5 3] ((-5 : ℤ) : ℚ) 30
          [(0, ⟨GurobiStatus.OPTIMAL, 1, [], 0⟩, true)]) initial_job).reach_curve = [] ∧
    (run_optimization_jobs true [] "S"
        (completions_from [Station.mk "A" 5 3] ((-5 : ℤ) : ℚ) 30
          [(0, ⟨GurobiStatus.OPTIMAL, 1, [], 0⟩, true)]) initial_job).main_result =
      none :=
  submit_accepts_nonpositive_audience (-5) 7 "S" [Station.mk "A" 5 3] 0 30
    ⟨GurobiStatus.OPTIMAL, 1, [], 0⟩ [] [(0, ⟨GurobiStatus.OPTIMAL, 1, [], 0⟩, true)]
    (by norm_num) (by simp)

/-- C3, counterexample: a concrete known job whose snapshot is taken via
get_job_status, after which the background flow appends a curve point to
the job's reach_curve list; the curve contents reachable through the
already-returned snapshot change, so the snapshot does expose a mutable
reference that the background flow can still mutate — job.copy() is a
shallow dict copy, not the claimed deep copy. -/
theorem snapshot_exposes_mutable_reference :
    get_job_status c3_jobs "j" = some c3_record ∧
    snapshotCurve (backgroundAppend c3_jobs empty_heap "j" (CurvePoint.mk 1 2))
        c3_record ≠
      snapshotCurve empty_heap c3_record := by
  constructor
  · simp [get_job_status, c3_jobs, c3_record]
  · simp [snapshotCurve, backgroundAppend, c3_jobs, c3_record, empty_heap,
      insert_and_sort, sortByBudget]

/-- C3, amended: get_job_status returns NotFound (none) for an unknown job
id; for a known id it returns job.copy(), a shallow copy that duplicates the
top-level fields but shares the stored record's reach-curve reference, so a
background append performed after the snapshot was returned is visible
through the snapshot. -/
theorem get_job_status_shallow_snapshot (jobs : List (String × JobRecord))
    (h : CurveHeap) (id1 id2 : String) (j : JobRecord) (p : CurvePoint)
    (h1 : jobs.lookup id1 = some j) (h2 : jobs.lookup id2 = none) :
    get_job_status jobs id2 = none ∧
    get_job_status jobs id1 = some j ∧
    snapshotCurve (backgroundAppend jobs h id1 p) j =
      insert_and_sort (snapshotCurve h j) p := by
  refine ⟨?_, ?_, ?_⟩
  · simp [get_job_status, h2]
  · simp [get_job_status, h1]
  · simp [backgroundAppend, h1, snapshotCurve]

/-- Witness for get_job_status_shallow_snapshot on the concrete one-job
store. -/
theorem get_job_status_shallow_snapshot_witness :
    get_job_status c3_jobs "missing" = none ∧
    get_job_status c3_jobs "j" = some c3_record ∧
    snapshotCurve (backgroundAppend c3_jobs empty_heap "j" (CurvePoint.mk 1 2))
        c3_record =
      insert_and_sort (snapshotCurve empty_heap c3_record) (CurvePoint.mk 1 2) :=
  get_job_status_shallow_snapshot c3_jobs empty_heap "j" "missing" c3_record
    (CurvePoint.mk 1 2) (by simp [c3_jobs]) (by simp [c3_jobs])

/-- Helper: processing one pair row preserves positivity of every value
stored in the duplication map, because a row's duplication value is only
stored under the guard 0 < duplication_prob. -/
theorem pair_step_lookup_pos (stations : List String) (r lam : String → ℝ)
    (ta : ℝ) (m : List ((String × String) × ℝ)) (row : PairRow)
    (hm : ∀ k v, m.lookup k = some v → 0 < v) :
    ∀ k v, (pair_step stations r lam ta m row).lookup k = some v → 0 < v := by
  intro k v hkv
  unfold pair_step at hkv
  split at hkv
  · dsimp only at hkv
    split at hkv
    · rename_i hdp
      simp only [List.lookup] at hkv
      split at hkv
      · obtain rfl : _ = v := Option.some.injEq _ _ ▸ hkv
        exact hdp
      · exact hm k v hkv
    · exact hm k v hkv
  · exact hm k v hkv

/-- C5: the code's covariance computation (default 0, overwrite with
lambda1 + lambda2 + ln(log_arg) when log_arg > 0, then clamp by max 0)
coincides with the claim's per-branch formulation lambda_W =
max(0, lambda1 + lambda2 + ln(log_arg)) when log_arg > 0 else 0; and every
value stored in the duplication map built by the pair loop is strictly
positive — zero or negative duplication values are dropped, never stored. -/
theorem duplication_map_positive_and_lambda_W_matches
    (lambda1 lambda2 log_arg : ℝ) (stations : List String) (r lam : String → ℝ)
    (ta : ℝ) (rows : List PairRow) (k : String × String) (v : ℝ)
    (hmem : (build_d_ij stations r lam ta rows).lookup k = some v) :
    lambda_W_code lambda1 lambda2 log_arg =
      lambda_W_claim lambda1 lambda2 log_arg ∧
    0 < v := by
  constructor
  · unfold lambda_W_code lambda_W_claim
    by_cases hla : 0 < log_arg
    · rw [if_pos hla, if_pos hla]
    · rw [if_neg hla, if_neg hla, max_self]
  · have hinv : ∀ (rs : List PairRow) (m : List ((String × String) × ℝ)),
        (∀ k v, m.lookup k = some v → 0 < v) →
        ∀ k v, (rs.foldl (pair_step stations r lam ta) m).lookup k = some v →
          0 < v := by
      intro rs
      induction rs with
      | nil => intro m hm; exact hm
      | cons a t ih =>
          intro m hm
          exact ih _ (pair_step_lookup_pos stations r lam ta m a hm)
    refine hinv rows [] ?_ k v hmem
    intro k v hkv
    simp at hkv

/-- Witness for duplication_map_positive_and_lambda_W_matches: stations A
and B with r = 0 and lambda = 1, total audience 1, and a single pair row
with combined cume -2, making log_arg = -1 <= 0 (independence fallback,
lambda_W = 0) and duplication 1 - e^(-2) > 0, which is stored under the
canonical key (A, B). -/
theorem duplication_map_positive_and_lambda_W_matches_witness :
    lambda_W_code 1 1 1 = lambda_W_claim 1 1 1 ∧
    (0 : ℝ) < 1 - Real.exp (-2) :=
  duplication_map_positive_and_lambda_W_matches 1 1 1 ["A", "B"]
    (fun _ => (0 : ℝ)) (fun _ => (1 : ℝ)) 1 [PairRow.mk "A" "B" (-2)]
    ("A", "B") (1 - Real.exp (-2))
    (by
      have harg : (1 : ℝ) - 0 - 0 + (((-2 : ℚ) : ℝ)) / 1 = -1 := by push_cast; ring
      have hlw : lambda_W_code 1 1 (-1 : ℝ) = 0 := by
        unfold lambda_W_code
        rw [if_neg (by norm_num), max_self]
      have hd : duplication_of 1 1 (lambda_W_code 1 1 (-1 : ℝ)) =
          1 - Real.exp (-2) := by
        rw [hlw]
        unfold duplication_of
        norm_num
      have hpos : 0 < duplication_of 1 1 (lambda_W_code 1 1 (-1 : ℝ)) := by
        rw [hd]
        have h1 : Real.exp (-2) < 1 := Real.exp_lt_one_iff.mpr (by norm_num)
        linarith
      unfold build_d_ij
      simp only [List.foldl_cons, List.foldl_nil]
      unfold pair_step
      rw [if_pos (by simp)]
      dsimp only
      rw [harg]
      rw [if_pos hpos, hd]
      have hmin : min "A" "B" = "A" := by simp [min_def]; decide
      have hmax : max "A" "B" = "B" := by simp [max_def]; decide
      simp [List.lookup, hmin, hmax])
